import Mathlib

/-!
Shallow embedding of the "calculator" scripting-language interpreter:
tokenizer (src/tokenizer.rs), bracket stack (src/bracket.rs), precedence-climbing
parser (src/parser.rs), value model and builtin registry (src/values.rs,
src/values/function.rs, src/values/builtins.rs) and tree-walking evaluator
(src/runtime.rs), together with theorems settling the frozen claims.

Modelling conventions:
* Rust `i32` arithmetic is modelled on `Int` with explicit two's-complement
  wrapping (`wrap32`), i.e. the release-profile semantics.
* Rust `f32` payloads are modelled as exact rationals (`Rat`); every theorem
  about floats below is at the constructor level only and never depends on
  f32 rounding.  The transcendental f32 functions used only by the `log`,
  `exp` and `random` builtins (never reached by any claim) are modelled by
  fixed total functions, clearly marked below.
* Rust `&mut HashMap<String, Rc<Value>>` environments are modelled by
  explicit state passing of `Env := String → Option Value`; `HashMap::clone`
  is then simply reuse of the same map.
* Fallible code returns an explicit result type; Rust panics (index out of
  bounds, arithmetic on an empty Vec) are modelled by a distinct `panicked`
  outcome; the fuel needed by non-structural recursion is threaded
  explicitly, with a distinct `outOfFuel` outcome that no theorem ever
  counts as success or as failure of the program.
* Display-only data is kept where cheap: `RuntimeError` keeps its traceback
  of expressions; `TokenizerError`/`ParserError` keep their message and the
  offending index, dropping only the borrowed source/token-slice fields that
  exist purely for rendering.
-/

namespace Calculator

/-- Bracket families (src/bracket.rs `BracketType`). -/
inductive BracketType where
  | Round
  | Curly
deriving DecidableEq, Repr

/-- Bracket sides (src/bracket.rs `BracketSide`). -/
inductive BracketSide where
  | Opening
  | Closing
deriving DecidableEq, Repr

/-- A bracket token payload (src/bracket.rs `Bracket`). -/
structure Bracket where
  type_ : BracketType
  side : BracketSide
deriving DecidableEq, Repr

/-- Modelled from the spec: the token kinds (src/tokenizer.rs `TokenType`).
The tokenizer snapshot under src/ predates the parser: it lacks the `Comma`
and `Comment` variants that src/parser.rs consumes (`TokenType::Comma` for
tuple syntax, `TokenType::Comment` in `skip_comments`), so those two
variants are restored here following the spec's token list ("operator
symbols", "comment") and the tuple syntax its parser section requires.
All remaining variants are exactly the src enum. -/
inductive TokenType where
  | Number
  | Plus
  | Minus
  | Star
  | Slash
  | Bracket (b : Bracket)
  | ExprEnd
  | Caret
  | Equals
  | Identifier
  | StringLiteral
  | BoolLiteral
  | If
  | Else
  | LeftAngle
  | RightAngle
  | DoubleEquals
  | Return
  | Bang
  | While
  | Func
  | Comma
  | Comment
deriving DecidableEq, Repr

/-- A token: kind plus lexeme (src/tokenizer.rs `Token`).  The Rust lexeme
is a borrowed slice of the source; it is modelled as the same characters,
materialised as a `String`. -/
structure Token where
  t : TokenType
  lexeme : String
deriving DecidableEq, Repr

/-- src/errors.rs `TokenizerError`, minus the borrowed `code` field (used
only for rendering the caret snippet). -/
structure TokenizerError where
  errmsg : String
  error_char_idx : Nat
deriving DecidableEq, Repr

/-- Outcome of running a fallible, possibly panicking, fuel-limited
computation.  `panicked` models a Rust panic; `outOfFuel` is an artefact of
the embedding's explicit fuel and never corresponds to a program behaviour. -/
inductive RunResult (ε : Type) (α : Type) where
  | ok (a : α)
  | err (e : ε)
  | panicked
  | outOfFuel
deriving DecidableEq, Repr

namespace RunResult

def bind {ε α β : Type} : RunResult ε α → (α → RunResult ε β) → RunResult ε β
  | .ok a, f => f a
  | .err e, _ => .err e
  | .panicked, _ => .panicked
  | .outOfFuel, _ => .outOfFuel

def mapErr {ε ε' α : Type} (f : ε → ε') : RunResult ε α → RunResult ε' α
  | .ok a => .ok a
  | .err e => .err (f e)
  | .panicked => .panicked
  | .outOfFuel => .outOfFuel

end RunResult

/-- src/tokenizer.rs `CharMatch`. -/
inductive CharMatch where
  | Token (t : TokenType)
  | Whitespace
  | Unexpected
deriving DecidableEq, Repr

/-- Modelled from the spec: src/tokenizer.rs `match_char`, plus the comma
arm that the src snapshot is missing although src/parser.rs consumes
`TokenType::Comma` (the spec's parser section and destructuring examples,
e.g. `a, b = 1, 2`, require comma to tokenize).  Every other arm is exactly
the src table; `#` remains unexpected because the comment arm is commented
out in src. -/
def match_char (ch : Char) : CharMatch :=
  if ch = '+' then .Token .Plus
  else if ch = '-' then .Token .Minus
  else if ch = '!' then .Token .Bang
  else if ch = '*' then .Token .Star
  else if ch = '/' then .Token .Slash
  else if ch = '(' then .Token (.Bracket ⟨.Round, .Opening⟩)
  else if ch = ')' then .Token (.Bracket ⟨.Round, .Closing⟩)
  else if ch = ';' then .Token .ExprEnd
  else if ch = '=' then .Token .Equals
  else if ch = '^' then .Token .Caret
  else if ch = '<' then .Token .LeftAngle
  else if ch = '>' then .Token .RightAngle
  else if ch = '{' then .Token (.Bracket ⟨.Curly, .Opening⟩)
  else if ch = '}' then .Token (.Bracket ⟨.Curly, .Closing⟩)
  else if ch = ',' then .Token .Comma
  else if ch.isWhitespace then .Whitespace
  else .Unexpected

/-- Rust `str::to_lowercase` on ASCII text (character-by-character
lowering; the model avoids `String.toLower` only because that library
function does not reduce inside the kernel). -/
def strToLower (s : String) : String :=
  String.mk (s.data.map Char.toLower)

/-- src/tokenizer.rs `match_keyword`. -/
def match_keyword (lexeme : String) : Option TokenType :=
  if lexeme = "if" then some .If
  else if lexeme = "else" then some .Else
  else if strToLower lexeme = "true" then some .BoolLiteral
  else if strToLower lexeme = "false" then some .BoolLiteral
  else if lexeme = "return" then some .Return
  else if lexeme = "while" then some .While
  else if lexeme = "func" then some .Func
  else none

/-- src/tokenizer.rs `is_numeric_char`. -/
def is_numeric_char (ch : Char) : Bool :=
  ch.isDigit || ch = '.'

/-- src/tokenizer.rs `iter_while_predicate`, enriched with the consumed
prefix (which Rust recovers by slicing the source): returns the matched
run, the first failing indexed character (`none` when the iterator is
exhausted, matching Rust's `None` return), and the rest of the iterator
after that failing character. -/
def iter_while_predicate (p : Char → Bool) :
    List (Nat × Char) → (List Char × Option (Nat × Char) × List (Nat × Char))
  | [] => ([], none, [])
  | (idx, ch) :: rest =>
    if p ch then
      let r := iter_while_predicate p rest
      (ch :: r.1, r.2.1, r.2.2)
    else ([], some (idx, ch), rest)

theorem iter_while_predicate_rest_length (p : Char → Bool) (l : List (Nat × Char)) :
    (iter_while_predicate p l).2.2.length ≤ l.length := by
  induction l with
  | nil => simp [iter_while_predicate]
  | cons hd tl ih =>
    obtain ⟨idx, ch⟩ := hd
    by_cases h : p ch
    · simpa [iter_while_predicate, h] using Nat.le_succ_of_le ih
    · simp [iter_while_predicate, h]

/-- The scanning loop of src/tokenizer.rs `tokenize`: one forward pass with
one pending single-character token (`current_char`) carried between
iterations.  `codeLen` stands for Rust's `code.len()` (the source is ASCII
on every non-error path, so byte and character counts agree).  Each
iteration consumes at least one character, so the `code.length + 1` fuel
supplied by `tokenize` always suffices. -/
def scan (codeLen : Nat) :
    Nat → List (Nat × Char) → Option Char → List Token → RunResult TokenizerError (List Token)
  | 0, _, _, _ => .outOfFuel
  | _ + 1, [], current_char, tokens =>
    -- matching the last leftover character, if it exists
    match current_char with
    | none => .ok tokens
    | some c =>
      match match_char c with
      | .Token tt => .ok (tokens ++ [⟨tt, String.mk [c]⟩])
      | .Whitespace => .ok tokens
      | .Unexpected => .err ⟨"unexpected character", codeLen - 1⟩
  | fuel + 1, (lookahead_idx, lookahead_char) :: rest, current_char, tokens =>
    if lookahead_char.toNat ≥ 128 then
      .err ⟨"non-ASCII character", lookahead_idx⟩
    else
      -- matching single-char tokens, possibly left over from the previous
      -- iteration / long token matching (the pending character always sits
      -- at index `lookahead_idx - 1`, so its lexeme is its own character)
      let pending : RunResult TokenizerError (List Token) :=
        match current_char with
        | none => .ok tokens
        | some c =>
          match match_char c with
          | .Token tt => .ok (tokens ++ [⟨tt, String.mk [c]⟩])
          | .Whitespace => .ok tokens
          | .Unexpected => .err ⟨"unexpected character", lookahead_idx - 1⟩
      pending.bind fun tokens =>
        -- lookahead matching of "long" tokens with subiteration
        if is_numeric_char lookahead_char then
          let r := iter_while_predicate is_numeric_char rest
          scan codeLen fuel r.2.2 (r.2.1.map (·.2))
            (tokens ++ [⟨.Number, String.mk (lookahead_char :: r.1)⟩])
        else if lookahead_char.isAlpha then
          let r := iter_while_predicate (fun ch => ch.isAlphanum || ch = '_') rest
          let lexeme := String.mk (lookahead_char :: r.1)
          scan codeLen fuel r.2.2 (r.2.1.map (·.2))
            (tokens ++ [⟨(match_keyword lexeme).getD .Identifier, lexeme⟩])
        else if lookahead_char = '=' then
          let r := iter_while_predicate (fun ch => ch = '=') rest
          let end_idx := (r.2.1.map (·.1)).getD codeLen
          let lexeme := String.mk (lookahead_char :: r.1)
          if lexeme.length = 1 then
            scan codeLen fuel r.2.2 (r.2.1.map (·.2)) (tokens ++ [⟨.Equals, lexeme⟩])
          else if lexeme.length = 2 then
            scan codeLen fuel r.2.2 (r.2.1.map (·.2)) (tokens ++ [⟨.DoubleEquals, lexeme⟩])
          else
            .err ⟨"too much equal signs", end_idx - 1⟩
        else if lookahead_char = '"' then
          let r := iter_while_predicate (fun ch => ch ≠ '"') rest
          match r.2.1 with
          | none => .err ⟨"unterminated string literal", codeLen - 1⟩
          | some _ =>
            scan codeLen fuel r.2.2 none
              (tokens ++ [⟨.StringLiteral, String.mk ('"' :: r.1 ++ ['"'])⟩])
        else
          scan codeLen fuel rest (some lookahead_char) tokens

/-- src/tokenizer.rs `tokenize`: scan, then append an implied expression
terminator if absent.  An empty source returns early with no tokens; a
whitespace-only source reaches `tokens[tokens.len() - 1]` on an empty Vec,
which panics. -/
def tokenize (code : String) : RunResult TokenizerError (List Token) :=
  if code.length = 0 then .ok []
  else
    (scan code.length (code.length + 1) code.toList.enum none []).bind fun tokens =>
      match tokens.getLast? with
      | none => .panicked
      | some last =>
        if last.t ≠ .ExprEnd then .ok (tokens ++ [⟨.ExprEnd, ";"⟩])
        else .ok tokens

/-- src/parser.rs `BinaryOp`. -/
inductive BinaryOp where
  | Add
  | Sub
  | Mul
  | Div
  | Pow
  | Assign
  | IsEq
  | IsGt
  | IsLt
  | FunctionCall
  | FormTuple
  | AppendToTuple
deriving DecidableEq, Repr

/-- src/parser.rs `UnaryOp`. -/
inductive UnaryOp where
  | Neg
  | Return
deriving DecidableEq, Repr

/-- src/parser.rs `Op`. -/
inductive Op where
  | Unary (u : UnaryOp)
  | Binary (b : BinaryOp)
deriving DecidableEq, Repr

/-- src/parser.rs `ORDER_OF_PRECEDENCE` (lowest to highest binding power;
note that `AppendToTuple` is absent from the table). -/
def ORDER_OF_PRECEDENCE : List Op :=
  [.Unary .Return,
   .Binary .Assign,
   .Binary .FormTuple,
   .Binary .IsEq,
   .Binary .IsLt,
   .Binary .IsGt,
   .Binary .Add,
   .Binary .Sub,
   .Binary .Mul,
   .Binary .Div,
   .Unary .Neg,
   .Binary .Pow,
   .Binary .FunctionCall]

/-- src/parser.rs `Op::precedence`: index in the table, or `usize::MAX` for
an operator absent from it (`AppendToTuple`). -/
def Op.precedence (op : Op) : Nat :=
  (ORDER_OF_PRECEDENCE.indexOf? op).getD (2 ^ 64 - 1)

/-- src/parser.rs `Op::is_rtl`: `Assign` and `FunctionCall` are the two
right-associative operators. -/
def Op.is_rtl (op : Op) : Bool :=
  op = Op.Binary .Assign || op = Op.Binary .FunctionCall

/-- Tags for the six members of the fixed builtin registry
(src/values/builtins.rs).  Rust compares builtins by function pointer;
since the registry is fixed and its entries are distinct, pointer equality
coincides with this name tag's equality. -/
inductive BuiltinName where
  | log
  | exp
  | print
  | length
  | random
  | mod_
deriving DecidableEq, Repr

mutual

/-- src/values.rs `Value` (final revision, as used by src/runtime.rs).
`Int` carries Rust `i32` values (arithmetic below wraps mod 2^32);
`Float` models `f32` payloads as exact rationals. -/
inductive Value where
  | Nothing
  | Int (n : Int)
  | Float (q : Rat)
  | String (s : String)
  | Bool (b : Bool)
  | Function (f : Function)
  | Tuple (elems : List Value)
  | Returned (v : Value)

/-- src/values/function.rs `Function`. -/
inductive Function where
  | Builtin (f : BuiltinName)
  | UserDefined (f : UserDefinedFunction)

/-- src/values/function.rs `UserDefinedFunction`. -/
inductive UserDefinedFunction where
  | mk (name : String) (params : Expression) (body : Expression)

/-- src/parser.rs `Expression`. -/
inductive Expression where
  | Value (v : Value)
  | Variable (name : String)
  | BinaryOperation (op : BinaryOp) (left : Expression) (right : Expression)
  | UnaryOperation (op : UnaryOp) (operand : Expression)
  | Scope (body : List Expression) (is_returnable : Bool)
  | If (condition : Expression) (if_true : Expression) (if_false : Option Expression)
  | While (condition : Expression) (body : Expression) (if_completed : Option Expression)

end

/-- Field accessor for `UserDefinedFunction.name`. -/
def UserDefinedFunction.name : UserDefinedFunction → String
  | .mk n _ _ => n

/-- Field accessor for `UserDefinedFunction.params`. -/
def UserDefinedFunction.params : UserDefinedFunction → Expression
  | .mk _ p _ => p

/-- Field accessor for `UserDefinedFunction.body`. -/
def UserDefinedFunction.body : UserDefinedFunction → Expression
  | .mk _ _ b => b

/-- Alias for the string type, usable where the `Value.String` constructor
shadows the name `String`. -/
abbrev Str := String

/-- src/values.rs `Value::type_name`. -/
def Value.type_name : Value → Str
  | .Nothing => "nothing"
  | .Returned _ => "returned value"
  | .Int _ => "integer"
  | .Float _ => "floating point number"
  | .String _ => "string"
  | .Bool _ => "bool"
  | .Tuple _ => "tuple"
  | .Function (.Builtin _) => "built-in function"
  | .Function (.UserDefined _) => "function"

mutual

/-- Structural equality on values, mirroring Rust's derived `PartialEq` for
src/values.rs `Value` (the `Float` case compares the exact rational
payloads of the model; no claim depends on f32 rounding or NaN). -/
def valueEqb (a b : Value) : Bool :=
  match a, b with
  | .Nothing, .Nothing => true
  | .Int a, .Int b => a = b
  | .Float a, .Float b => a = b
  | .String a, .String b => a = b
  | .Bool a, .Bool b => a = b
  | .Function a, .Function b => functionEqb a b
  | .Tuple a, .Tuple b => valueListEqb a b
  | .Returned a, .Returned b => valueEqb a b
  | _, _ => false
termination_by structural a

/-- Structural equality mirroring Rust's derived `PartialEq` for
`Function` (builtin function pointers compare as their registry tags). -/
def functionEqb (a b : Function) : Bool :=
  match a, b with
  | .Builtin a, .Builtin b => a = b
  | .UserDefined a, .UserDefined b => udfEqb a b
  | _, _ => false
termination_by structural a

/-- Structural equality mirroring Rust's derived `PartialEq` for
`UserDefinedFunction`. -/
def udfEqb (a b : UserDefinedFunction) : Bool :=
  match a, b with
  | .mk n1 p1 b1, .mk n2 p2 b2 => n1 = n2 && exprEqb p1 p2 && exprEqb b1 b2
termination_by structural a

/-- Structural equality mirroring Rust's derived `PartialEq` for
src/parser.rs `Expression`. -/
def exprEqb (a b : Expression) : Bool :=
  match a, b with
  | .Value a, .Value b => valueEqb a b
  | .Variable a, .Variable b => a = b
  | .BinaryOperation op1 l1 r1, .BinaryOperation op2 l2 r2 =>
    op1 = op2 && exprEqb l1 l2 && exprEqb r1 r2
  | .UnaryOperation op1 o1, .UnaryOperation op2 o2 => op1 = op2 && exprEqb o1 o2
  | .Scope b1 r1, .Scope b2 r2 => exprListEqb b1 b2 && r1 = r2
  | .If c1 t1 f1, .If c2 t2 f2 => exprEqb c1 c2 && exprEqb t1 t2 && optExprEqb f1 f2
  | .While c1 b1 i1, .While c2 b2 i2 => exprEqb c1 c2 && exprEqb b1 b2 && optExprEqb i1 i2
  | _, _ => false
termination_by structural a

/-- Elementwise equality of value lists (Rust `Vec<Rc<Value>>` equality). -/
def valueListEqb (a b : List Value) : Bool :=
  match a, b with
  | [], [] => true
  | a :: as_, b :: bs => valueEqb a b && valueListEqb as_ bs
  | _, _ => false
termination_by structural a

/-- Elementwise equality of expression lists. -/
def exprListEqb (a b : List Expression) : Bool :=
  match a, b with
  | [], [] => true
  | a :: as_, b :: bs => exprEqb a b && exprListEqb as_ bs
  | _, _ => false
termination_by structural a

/-- Equality of optional expressions (Rust `Option<Box<Expression>>`). -/
def optExprEqb (a b : Option Expression) : Bool :=
  match a, b with
  | none, none => true
  | some a, some b => exprEqb a b
  | _, _ => false
termination_by structural a

end

/-- src/errors.rs `ParserError`, minus the borrowed token-slice field (used
only for rendering).  In the round-bracket arm the index is relative to the
bracketed sub-slice, exactly as in src. -/
structure ParserError where
  errmsg : String
  error_token_idx : Nat
deriving DecidableEq, Repr

/-- Parser computations: fallible, possibly panicking, fuel-limited. -/
abbrev PRes (α : Type) : Type := RunResult ParserError α

/-- src/bracket.rs `BracketStack::update`; the stack is a list of open
bracket families with its top at the head. -/
def BracketStack.update (stack : List BracketType) (bracket : Bracket) :
    Except String (List BracketType) :=
  match bracket.side with
  | .Opening => .ok (bracket.type_ :: stack)
  | .Closing =>
    match stack with
    | [] => .error "unmatched closing bracket"
    | top :: rest =>
      if top ≠ bracket.type_ then .error "unmatched closing bracket"
      else .ok rest

/-- The bracket-matching scan inside src/parser.rs `consume_operand`'s
bracket arm, recursing over the token-list suffix starting at position
`j`: advance `j` until the stack empties or the tokens run out, feeding
every bracket token to the stack. -/
def bracket_scan_from : List Token → Nat → List BracketType →
    Except ParserError (Nat × List BracketType)
  | _, j, [] => .ok (j, [])
  | [], j, stack => .ok (j, stack)
  | tok :: rest, j, stack =>
    match tok.t with
    | .Bracket b =>
      match BracketStack.update stack b with
      | .error update_errmsg => .error ⟨update_errmsg, j⟩
      | .ok stack' => bracket_scan_from rest (j + 1) stack'
    | _ => bracket_scan_from rest (j + 1) stack

/-- The bracket scan starting from absolute position `j` of `tokens`. -/
def bracket_scan (tokens : List Token) (j : Nat) (stack : List BracketType) :
    Except ParserError (Nat × List BracketType) :=
  bracket_scan_from (tokens.drop j) j stack

/-- src/parser.rs `skip_comments`, recursing over the token-list suffix
(vacuous in practice: the src tokenizer never emits a `Comment` token). -/
def skip_comments_from : List Token → Nat → Nat
  | tok :: rest, i => if tok.t = .Comment then skip_comments_from rest (i + 1) else i
  | [], i => i

/-- src/parser.rs `skip_comments` at absolute position `i` of `tokens`. -/
def skip_comments (tokens : List Token) (i : Nat) : Nat :=
  skip_comments_from (tokens.drop i) i

/-- The `advance_if_type` closure of src/parser.rs `consume_operand`. -/
def advance_if_type (tokens : List Token) (idx : Nat) (t : TokenType) : Nat :=
  match tokens.get? idx with
  | some tok => if tok.t = t then idx + 1 else idx
  | none => idx

/-- Decimal value of a digit run (helper for literal parsing). -/
def digitsToNat (l : List Char) : Nat :=
  l.foldl (fun acc ch => acc * 10 + (ch.toNat - 48)) 0

/-- Rust `str::parse::<i32>` restricted to the lexemes the tokenizer can
produce for a dot-free `Number` token (a nonempty run of digits): the
value, or `none` on overflow past `i32::MAX`. -/
def parse_i32 (s : String) : Option Int :=
  if s.length > 0 && s.data.all Char.isDigit then
    let n := digitsToNat s.data
    if n ≤ 2147483647 then some (n : Int) else none
  else none

/-- Splitting a character list at every occurrence of `c` (Rust
`str::split`, specialised to the dot of a float literal). -/
def splitOnChar (c : Char) : List Char → List (List Char)
  | [] => [[]]
  | ch :: rest =>
    let r := splitOnChar c rest
    if ch = c then [] :: r
    else
      match r with
      | hd :: tl => (ch :: hd) :: tl
      | [] => [[ch]]

/-- Rust `str::parse::<f32>` restricted to the lexemes the tokenizer can
produce for a `Number` token containing a dot (digits and dots): accepted
iff there is exactly one dot and at least one digit, as for f32 (".5" and
"1." parse, "." and "1.2.3" do not).  The numeric value is kept exact
rather than rounded to f32. -/
def parse_f32 (s : String) : Option Rat :=
  match splitOnChar '.' s.data with
  | [intPart, fracPart] =>
    if (intPart.length > 0 || fracPart.length > 0)
        && intPart.all Char.isDigit && fracPart.all Char.isDigit then
      some ((digitsToNat intPart : Rat)
        + (digitsToNat fracPart : Rat) / ((10 : Rat) ^ fracPart.length))
    else none
  | _ => none

mutual

/-- src/parser.rs `consume_expression` (precedence climbing); its interior
`loop` is `consume_expression_loop` below.  `fuel` makes the non-structural
recursion well-founded; every claim below is settled at or below a fuel
every path has enough of. -/
def consume_expression (fuel : Nat) (tokens : List Token) (i : Nat)
    (outer_op : Option Op) (terminate_on_unexpected_token : Bool) :
    PRes (Expression × Nat) :=
  match fuel with
  | 0 => .outOfFuel
  | fuel + 1 =>
    consume_expression_loop fuel tokens outer_op terminate_on_unexpected_token none none i
termination_by structural fuel

/-- The interior `loop` of src/parser.rs `consume_expression`, with the
loop-mutable state (`result`, `prev_op`, `i`) as arguments. -/
def consume_expression_loop (fuel : Nat) (tokens : List Token)
    (outer_op : Option Op) (terminate_on_unexpected_token : Bool)
    (result : Option Expression) (prev_op : Option Op) (i : Nat) :
    PRes (Expression × Nat) :=
  match fuel with
  | 0 => .outOfFuel
  | fuel + 1 =>
    let i := skip_comments tokens i
    let step : PRes (Option Expression × Nat) :=
      match result with
      | none => consume_operand fuel tokens i
      | some _ => .ok (result, i)
    step.bind fun (left, i) =>
      let i := skip_comments tokens i
      match left with
      | some left =>
        if i ≥ tokens.length || (tokens.get? i).any (fun tok => tok.t = .ExprEnd) then
          .ok (left, min i tokens.length)
        else
          match tokens.get? i with
          | none => .panicked
          | some tok =>
            let next_binary_op? : Option BinaryOp :=
              match tok.t with
              | .Plus => some .Add
              | .Minus => some .Sub
              | .Star => some .Mul
              | .Slash => some .Div
              | .Caret => some .Pow
              | .Equals => some .Assign
              | .DoubleEquals => some .IsEq
              | .LeftAngle => some .IsLt
              | .RightAngle => some .IsGt
              | .Comma =>
                if prev_op = some (Op.Binary .FormTuple)
                    || prev_op = some (Op.Binary .AppendToTuple) then
                  some .AppendToTuple
                else some .FormTuple
              | .Bracket ⟨.Round, .Opening⟩ => some .FunctionCall
              | _ => none
            match next_binary_op? with
            | none =>
              if terminate_on_unexpected_token then .ok (left, i)
              else .err ⟨"expression end or binary operator expected here", i⟩
            | some next_binary_op =>
              let next_op_token_count : Nat := if next_binary_op = .FunctionCall then 0 else 1
              let op := Op.Binary next_binary_op
              let should_return : Bool :=
                match outer_op with
                | some prev =>
                  op.precedence < prev.precedence || (op = prev && !op.is_rtl)
                | none => false
              if should_return then .ok (left, i)
              else
                (consume_expression fuel tokens (i + next_op_token_count) (some op)
                    terminate_on_unexpected_token).bind fun (right, i') =>
                  consume_expression_loop fuel tokens outer_op
                    terminate_on_unexpected_token
                    (some (.BinaryOperation next_binary_op left right)) (some op) i'
      | none =>
        if i ≥ tokens.length || (tokens.get? i).any (fun tok => tok.t = .ExprEnd) then
          .ok (.Value .Nothing, i)
        else
          match tokens.get? i with
          | none => .panicked
          | some tok =>
            let next_unary_op? : Option UnaryOp :=
              match tok.t with
              | .Minus => some .Neg
              | .Bang => some .Neg
              | .Return => some .Return
              | _ => none
            match next_unary_op? with
            | none => .err ⟨"operand or unary operator expected here", i⟩
            | some next_unary_op =>
              (consume_expression fuel tokens (i + 1) (some (.Unary next_unary_op))
                  terminate_on_unexpected_token).bind fun (operand, i') =>
                consume_expression_loop fuel tokens outer_op
                  terminate_on_unexpected_token
                  (some (.UnaryOperation next_unary_op operand)) prev_op i'
termination_by structural fuel

/-- src/parser.rs `consume_operand`. -/
def consume_operand (fuel : Nat) (tokens : List Token) (i : Nat) :
    PRes (Option Expression × Nat) :=
  match fuel with
  | 0 => .outOfFuel
  | fuel + 1 =>
    match tokens.get? i with
    | none => .ok (none, i)
    | some next =>
      match next.t with
      | .ExprEnd => .ok (none, i)
      | .Number =>
        if next.lexeme.data.contains '.' then
          match parse_f32 next.lexeme with
          | some f => .ok (some (.Value (.Float f)), i + 1)
          | none => .err ⟨"not a valid floating point number", i⟩
        else
          match parse_i32 next.lexeme with
          | some n => .ok (some (.Value (.Int n)), i + 1)
          | none => .err ⟨"not a valid integer", i⟩
      | .StringLiteral =>
        .ok (some (.Value (.String ((next.lexeme.drop 1).dropRight 1))), i + 1)
      | .BoolLiteral =>
        .ok (some (.Value (.Bool (strToLower next.lexeme = "true"))), i + 1)
      | .Identifier => .ok (some (.Variable next.lexeme), i + 1)
      | .Bracket bracket =>
        match bracket.side with
        | .Closing => .ok (none, i)
        | .Opening =>
          match bracket_scan tokens (i + 1) [bracket.type_] with
          | .error e => .err e
          | .ok (j, stack) =>
            if stack ≠ [] then .err ⟨"unclosed bracket", i⟩
            else
              let bracketed_tokens := (tokens.drop (i + 1)).take (j - 1 - (i + 1))
              if bracketed_tokens.length = 0 then .ok (some (.Value .Nothing), j)
              else
                match bracket.type_ with
                | .Round =>
                  (consume_expression fuel bracketed_tokens 0 none false).bind
                    fun (expr, last_expr_token_offset_idx) =>
                      if last_expr_token_offset_idx < bracketed_tokens.length - 1 then
                        .err ⟨"round brackets must contain only one expression",
                          last_expr_token_offset_idx⟩
                      else .ok (some expr, j)
                | .Curly =>
                  (parse_scope fuel bracketed_tokens false).bind fun scope =>
                    .ok (some scope, j)
      | .If =>
        consume_if_while fuel tokens i true
      | .While =>
        consume_if_while fuel tokens i false
      | .Func =>
        (consume_expression fuel tokens (i + 1) none true).bind
          fun (func_declaration_expr, j) =>
            match func_declaration_expr with
            | .BinaryOperation .FunctionCall left right =>
              match left with
              | .Variable func_name =>
                let j := advance_if_type tokens j .ExprEnd
                (consume_expression fuel tokens j none false).bind fun (func_body, j') =>
                  let func_body :=
                    match func_body with
                    | .Scope body _ => Expression.Scope body true
                    | other => other
                  .ok (some (.BinaryOperation .Assign (.Variable func_name)
                    (.Value (.Function (.UserDefined (.mk func_name right func_body))))), j')
              | _ => .err ⟨"functon name expected here", i + 1⟩
            | _ => .err ⟨"function declaration expected here", i + 1⟩
      | _ => .ok (none, i)
termination_by structural fuel

/-- The shared `if`/`while` arm of src/parser.rs `consume_operand`
(`is_if = true` builds an `If`, otherwise a `While`).  Note the unguarded
Rust indexing `tokens[j]` after the condition, which panics when the
condition consumed every remaining token. -/
def consume_if_while (fuel : Nat) (tokens : List Token) (i : Nat) (is_if : Bool) :
    PRes (Option Expression × Nat) :=
  match fuel with
  | 0 => .outOfFuel
  | fuel + 1 =>
    (consume_expression fuel tokens (i + 1) none true).bind fun (condition, j) =>
      match tokens.get? j with
      | none => .panicked
      | some tok =>
        let j := if tok.t = .ExprEnd then j + 1 else j
        (consume_expression fuel tokens j none true).bind fun (body, j) =>
          let possible_else_idx := advance_if_type tokens j .ExprEnd
          let possible_else_body_start_idx := advance_if_type tokens possible_else_idx .Else
          if possible_else_body_start_idx > possible_else_idx then
            (consume_expression fuel tokens possible_else_body_start_idx none false).bind
              fun (expr, j') =>
                if is_if then
                  .ok (some (.If condition body (some expr)), j')
                else
                  .ok (some (.While condition body (some expr)), j')
          else
            if is_if then .ok (some (.If condition body none), j)
            else .ok (some (.While condition body none), j)
termination_by structural fuel

/-- src/parser.rs `parse_scope`; its statement loop is
`parse_scope_loop` below. -/
def parse_scope (fuel : Nat) (tokens : List Token) (is_returnable : Bool) :
    PRes Expression :=
  match fuel with
  | 0 => .outOfFuel
  | fuel + 1 => parse_scope_loop fuel tokens 0 [] is_returnable
termination_by structural fuel

/-- The `while i < tokens.len()` statement loop of src/parser.rs
`parse_scope`. -/
def parse_scope_loop (fuel : Nat) (tokens : List Token) (i : Nat)
    (body : List Expression) (is_returnable : Bool) : PRes Expression :=
  match fuel with
  | 0 => .outOfFuel
  | fuel + 1 =>
    if i < tokens.length then
      (consume_expression fuel tokens i none false).bind fun (expr, i') =>
        parse_scope_loop fuel tokens (i' + 1) (body ++ [expr]) is_returnable
    else .ok (.Scope body is_returnable)
termination_by structural fuel

end

/-- src/parser.rs `parse`: the whole token sequence as one returnable
top-level scope. -/
def parse (fuel : Nat) (tokens : List Token) : PRes Expression :=
  parse_scope fuel tokens true

/-- src/errors.rs `RuntimeError`: message plus a traceback of the
expressions unwound through (the traceback is used only for diagnostic
display, but it is part of the returned error value, so it is kept). -/
structure RuntimeError where
  errmsg : String
  traceback : List Expression

/-- The environment, src `HashMap<String, Rc<Value>>`, as a lookup map;
`HashMap::clone` is reuse of the same map value. -/
def Env : Type := String → Option Value

/-- The empty environment (`HashMap::new`). -/
def envEmpty : Env := fun _ => none

/-- `HashMap::insert` (rebinding a name shadows the old value). -/
def envInsert (key : String) (v : Value) (env : Env) : Env :=
  fun name => if name = key then some v else env name

/-- Two's-complement wrapping into the i32 range: Rust release-profile
integer arithmetic.  (In the debug profile Rust panics on overflow
instead; no claim exercises an overflowing input, and the wrapping model
keeps the universally quantified typing claims meaningful.) -/
def wrap32 (n : Int) : Int := (n + 2 ^ 31) % 2 ^ 32 - 2 ^ 31

/-- Rust `f32::ln` (transcendental), modelled by a fixed total function:
it is reachable only through the `log` builtin, which no claim invokes, so
no theorem depends on its values. -/
def f32ln (_ : Rat) : Rat := 0

/-- Rust `f32::exp` (transcendental), modelled like `f32ln` (reachable
only through the `exp` builtin, which no claim invokes). -/
def f32exp (_ : Rat) : Rat := 0

/-- Rust `f32::powf` (transcendental), modelled like `f32ln` (reachable
only for Float^Float and Int^Float operands, which no claim produces). -/
def f32powf (_ _ : Rat) : Rat := 0

/-- Rust `rand::thread_rng().gen::<f32>()`: nondeterministic, modelled by
a fixed value; reachable only through the `random` builtin, which no claim
invokes. -/
def f32random : Rat := 0

/-- src/runtime.rs `add`.  (The src `(Float, Int)` arm delegates to
`add(b, a)`; the delegated result is written out directly.) -/
def add : Value → Value → Option Value
  | .Float f1, .Float f2 => some (.Float (f1 + f2))
  | .Int i1, .Float f2 => some (.Float ((i1 : Rat) + f2))
  | .Float f1, .Int i2 => some (.Float ((i2 : Rat) + f1))
  | .Int i1, .Int i2 => some (.Int (wrap32 (i1 + i2)))
  | .String s1, .String s2 => some (.String (s1 ++ s2))
  | .Bool b1, .Bool b2 => some (.Bool (b1 || b2))
  | _, _ => none

/-- src/runtime.rs `sub`. -/
def sub : Value → Value → Option Value
  | .Float f1, .Float f2 => some (.Float (f1 - f2))
  | .Int i1, .Float f2 => some (.Float ((i1 : Rat) - f2))
  | .Float f1, .Int i2 => some (.Float (f1 - (i2 : Rat)))
  | .Int i1, .Int i2 => some (.Int (wrap32 (i1 - i2)))
  | _, _ => none

/-- src/runtime.rs `mul`.  (The `(Float, Int)` arm delegates to
`mul(b, a)`, written out directly.)  `String * Int` repeats the string;
Rust casts a negative count to a huge `usize` and aborts on allocation,
modelled as repetition by `Int.toNat` (zero) — no claim reaches it. -/
def mul : Value → Value → Option Value
  | .Float f1, .Float f2 => some (.Float (f1 * f2))
  | .Int i1, .Float f2 => some (.Float ((i1 : Rat) * f2))
  | .Float f1, .Int i2 => some (.Float ((i2 : Rat) * f1))
  | .Int i1, .Int i2 => some (.Int (wrap32 (i1 * i2)))
  | .String s, .Int i => some (.String (String.join (List.replicate i.toNat s)))
  | .Bool b1, .Bool b2 => some (.Bool (b1 && b2))
  | _, _ => none

/-- src/runtime.rs `div`: Int/Int always produces a Float.  (f32 division
by zero gives an infinity/NaN; the rational model gives 0 — no claim
divides by zero.) -/
def div : Value → Value → Option Value
  | .Float f1, .Float f2 => some (.Float (f1 / f2))
  | .Int i1, .Float f2 => some (.Float ((i1 : Rat) / f2))
  | .Float f1, .Int i2 => some (.Float (f1 / (i2 : Rat)))
  | .Int i1, .Int i2 => some (.Float ((i1 : Rat) / (i2 : Rat)))
  | _, _ => none

/-- src/runtime.rs `pow`: for Int operands, a positive exponent stays Int
(`i1.pow(i2 as u32)`), a non-positive one is computed as
`(i1 as f32).powi(i2)` and is a Float. -/
def pow : Value → Value → Option Value
  | .Float f1, .Float f2 => some (.Float (f32powf f1 f2))
  | .Int i1, .Float f2 => some (.Float (f32powf (i1 : Rat) f2))
  | .Float f1, .Int i2 => some (.Float (f1 ^ i2))
  | .Int i1, .Int i2 =>
    some (if i2 > 0 then .Int (wrap32 (i1 ^ i2.toNat)) else .Float ((i1 : Rat) ^ i2))
  | .Bool b1, .Bool b2 => some (.Bool (xor b1 b2))
  | _, _ => none

/-- src/runtime.rs `lt`. -/
def lt : Value → Value → Option Value
  | .Float f1, .Float f2 => some (.Bool (decide (f1 < f2)))
  | .Int i1, .Float f2 => some (.Bool (decide ((i1 : Rat) < f2)))
  | .Float f1, .Int i2 => some (.Bool (decide (f1 < (i2 : Rat))))
  | .Int i1, .Int i2 => some (.Bool (decide (i1 < i2)))
  | _, _ => none

/-- src/runtime.rs `gt`. -/
def gt : Value → Value → Option Value
  | .Float f1, .Float f2 => some (.Bool (decide (f1 > f2)))
  | .Int i1, .Float f2 => some (.Bool (decide ((i1 : Rat) > f2)))
  | .Float f1, .Int i2 => some (.Bool (decide (f1 > (i2 : Rat))))
  | .Int i1, .Int i2 => some (.Bool (decide (i1 > i2)))
  | _, _ => none

/-- src/runtime.rs `eq`: Int/Float cross equality via promotion, and a
structural catch-all for every other pair — `eq` is total (never `none`). -/
def eq : Value → Value → Option Value
  | .Int i1, .Float f2 => some (.Bool (decide ((i1 : Rat) = f2)))
  | .Float f1, .Int i2 => some (.Bool (decide (f1 = (i2 : Rat))))
  | a, b => some (.Bool (valueEqb a b))

/-- src/runtime.rs `neg`. -/
def neg : Value → Option Value
  | .Float v => some (.Float (-v))
  | .Int v => some (.Int (wrap32 (-v)))
  | .Bool b => some (.Bool (!b))
  | _ => none

/-- src/values/builtins.rs `not_defined_for_arg`. -/
def not_defined_for_arg (func_name : String) (arg : Value) : Except String Value :=
  .error ("\"" ++ func_name ++ "\" built-in function is not defined for arg of type \""
    ++ arg.type_name ++ "\"")

/-- The bodies of the six builtin functions of src/values/builtins.rs
(`print`'s stdout side effect is outside the model; it returns Nothing).
`mod` uses Rust's truncating `%` (`Int.tmod`); Rust panics on a zero
divisor, the model returns the dividend — no claim reaches it. -/
def builtin_impl : BuiltinName → Value → Except String Value
  | .log, .Float v => .ok (.Float (f32ln v))
  | .log, .Int v => .ok (.Float (f32ln (v : Rat)))
  | .log, a => not_defined_for_arg "log" a
  | .exp, .Float v => .ok (.Float (f32exp v))
  | .exp, .Int v => .ok (.Float (f32exp (v : Rat)))
  | .exp, a => not_defined_for_arg "exp" a
  | .print, _ => .ok .Nothing
  | .length, .String s => .ok (.Int (s.length : Int))
  | .length, a => not_defined_for_arg "length" a
  | .random, .Nothing => .ok (.Float f32random)
  | .random, _ => .error "\"random\" built-in function accepts no arguments"
  | .mod_, .Tuple [.Int i1, .Int i2] => .ok (.Int (Int.tmod i1 i2))
  | .mod_, _ => .error "\"mod\" accepts two integer arguments"

/-- src/values/builtins.rs `builtin`: the fixed name → function registry. -/
def builtin (name : String) : Option Function :=
  if name = "log" then some (.Builtin .log)
  else if name = "exp" then some (.Builtin .exp)
  else if name = "print" then some (.Builtin .print)
  else if name = "length" then some (.Builtin .length)
  else if name = "random" then some (.Builtin .random)
  else if name = "mod" then some (.Builtin .mod_)
  else none

/-- Rust's `{:?}` rendering of a `BinaryOp` (used in assignment
shape-mismatch messages). -/
def binaryOpDebug : BinaryOp → String
  | .Add => "Add"
  | .Sub => "Sub"
  | .Mul => "Mul"
  | .Div => "Div"
  | .Pow => "Pow"
  | .Assign => "Assign"
  | .IsEq => "IsEq"
  | .IsGt => "IsGt"
  | .IsLt => "IsLt"
  | .FunctionCall => "FunctionCall"
  | .FormTuple => "FormTuple"
  | .AppendToTuple => "AppendToTuple"

/-- Rust's `{:?}` rendering of a `UnaryOp`. -/
def unaryOpDebug : UnaryOp → String
  | .Neg => "Neg"
  | .Return => "Return"

/-- The operator display names passed to the `apply_bin!` macro in the
left-to-right arm of src/runtime.rs `eval` (the other four operators never
reach the macro; their value here is never used). -/
def ltr_op_name : BinaryOp → String
  | .Add => "addition"
  | .Sub => "subtraction"
  | .Mul => "multiplication"
  | .Div => "division"
  | .Pow => "power"
  | .IsEq => "equality"
  | .IsLt => "less-than"
  | .IsGt => "greater-than"
  | _ => ""

/-- The operator → table-function dispatch of the left-to-right arm of
src/runtime.rs `eval` (the arms that invoke `apply_bin!`); `none` for the
operators handled elsewhere (`Assign`, `FunctionCall`) or without a lookup
table (`FormTuple`, `AppendToTuple`). -/
def ltr_op_table : BinaryOp → Option (Value → Value → Option Value)
  | .Add => some add
  | .Sub => some sub
  | .Mul => some mul
  | .Div => some div
  | .Pow => some pow
  | .IsEq => some eq
  | .IsLt => some lt
  | .IsGt => some gt
  | _ => none

mutual

/-- src/runtime.rs `eval`: the single recursive entry point of the
evaluator.  The mutable `&mut HashMap` is explicit state: results carry the
value together with the environment after evaluation.  The `_ => panic!`
arm of the src dispatch is `panicked`. -/
def eval (fuel : Nat) (expression : Expression) (vars : Env) :
    RunResult RuntimeError (Value × Env) :=
  match fuel with
  | 0 => .outOfFuel
  | fuel + 1 =>
    match expression with
    | .Value v => .ok (v, vars)
    | .Variable var_name =>
      match vars var_name with
      | some value => .ok (value, vars)
      | none =>
        match builtin var_name with
        | some builtin_func => .ok (.Function builtin_func, vars)
        | none =>
          .err ⟨"reference to non-existent variable \"" ++ var_name ++ "\"", [expression]⟩
    | .Scope body is_returnable =>
      if body.isEmpty then .ok (.Nothing, vars)
      else eval_scope_body fuel body is_returnable none vars
    | .BinaryOperation op left right =>
      match op with
      | .Assign =>
        (eval_assignment fuel left right vars).mapErr fun errmsg => ⟨errmsg, [expression]⟩
      | .FunctionCall =>
        (eval fuel left vars).bind fun (left_value, vars) =>
          match left_value with
          | .Function (.Builtin builtin_func) =>
            ((eval fuel right vars).mapErr fun e => ⟨e.errmsg, e.traceback ++ [expression]⟩).bind
              fun (arg_value, vars) =>
                match builtin_impl builtin_func arg_value with
                | .ok v => .ok (v, vars)
                | .error errmsg => .err ⟨errmsg, [expression]⟩
          | .Function (.UserDefined func) =>
            -- local_vars = vars.clone(); mutations of local_vars are
            -- invisible to the caller, whose map is returned unchanged
            ((eval_assignment fuel func.params right vars).mapErr
                fun errmsg => ⟨errmsg, [expression]⟩).bind
              fun (_, local_vars) =>
                ((eval fuel func.body local_vars).mapErr
                    fun e => ⟨e.errmsg, e.traceback ++ [expression]⟩).bind
                  fun (v, _) => .ok (v, vars)
          | _ =>
            .err ⟨"\"" ++ left_value.type_name ++ "\" is not callable", [expression]⟩
      | ltr_op =>
        -- right-to-left evaluation order, as in src
        ((eval fuel right vars).mapErr fun e => ⟨e.errmsg, e.traceback ++ [expression]⟩).bind
          fun (right_value, vars) =>
            ((eval fuel left vars).mapErr fun e => ⟨e.errmsg, e.traceback ++ [expression]⟩).bind
              fun (left_value, vars) =>
                match ltr_op_table ltr_op with
                | some f =>
                  match f left_value right_value with
                  | some v => .ok (v, vars)
                  | none =>
                    .err ⟨ltr_op_name ltr_op ++ " is not defined for "
                      ++ left_value.type_name ++ " and " ++ right_value.type_name,
                      [expression]⟩
                | none =>
                  match ltr_op with
                  | .FormTuple => .ok (.Tuple [left_value, right_value], vars)
                  | .AppendToTuple =>
                    match left_value with
                    | .Tuple left_tuple => .ok (.Tuple (left_tuple ++ [right_value]), vars)
                    | _ =>
                      .err ⟨"internal error: can\x27t append to non-tuple value", [expression]⟩
                  | _ => .panicked
    | .UnaryOperation op operand =>
      ((eval fuel operand vars).mapErr fun e => ⟨e.errmsg, e.traceback ++ [expression]⟩).bind
        fun (operand_value, vars) =>
          match op with
          | .Neg =>
            match neg operand_value with
            | some v => .ok (v, vars)
            | none =>
              -- apply_un! builds the error with traceback [expression] and the
              -- surrounding .map_err(extend_traceback) appends it again
              .err ⟨"negation is not defined for " ++ operand_value.type_name,
                [expression, expression]⟩
          | .Return => .ok (.Returned operand_value, vars)
    | .If condition if_true if_false =>
      (eval fuel condition vars).bind fun (condition_value, vars) =>
        match condition_value with
        | .Bool b =>
          if b then eval fuel if_true vars
          else
            match if_false with
            | some if_false_expr => eval fuel if_false_expr vars
            | none => .ok (.Nothing, vars)
        | _ =>
          .err ⟨"if condition must evaluate to bool, got " ++ condition_value.type_name,
            [expression]⟩
    | .While condition body _ =>
      -- the parsed if_completed clause is never read ("TBD" in src); it still
      -- reaches the error traceback through `expression` below
      eval_while fuel condition body expression .Nothing vars

/-- The statement loop of the `Scope` arm of src/runtime.rs `eval`; `last`
carries the most recent statement value (src keeps all of them in a Vec and
returns the last). -/
def eval_scope_body (fuel : Nat) (exprs : List Expression) (is_returnable : Bool)
    (last : Option Value) (vars : Env) : RunResult RuntimeError (Value × Env) :=
  match fuel with
  | 0 => .outOfFuel
  | fuel + 1 =>
    match exprs with
    | [] =>
      match last with
      | some v => .ok (v, vars)
      | none => .panicked
    | expr :: rest =>
      (eval fuel expr vars).bind fun (expr_value, vars) =>
        match expr_value with
        | .Returned v =>
          if is_returnable then .ok (v, vars)
          else .ok (.Returned v, vars)
        | _ => eval_scope_body fuel rest is_returnable (some expr_value) vars

/-- The interior `loop` of the `While` arm of src/runtime.rs `eval`.
`parent` is the whole `While` expression, captured by src's `new_error`
closure for the condition-type error's traceback. -/
def eval_while (fuel : Nat) (condition body parent : Expression) (last_result : Value)
    (vars : Env) : RunResult RuntimeError (Value × Env) :=
  match fuel with
  | 0 => .outOfFuel
  | fuel + 1 =>
    (eval fuel condition vars).bind fun (condition_value, vars) =>
      match condition_value with
      | .Bool run_loop_iteration =>
        if run_loop_iteration then
          (eval fuel body vars).bind fun (last_result, vars) =>
            match last_result with
            | .Returned v => .ok (.Returned v, vars)
            | _ => eval_while fuel condition body parent last_result vars
        else .ok (last_result, vars)
      | _ =>
        .err ⟨"while loop condition must evaluate to bool, got "
          ++ condition_value.type_name, [parent]⟩

/-- src/runtime.rs `eval_assignment`: destructuring assignment.  Errors are
plain strings, as in src (the caller wraps them into a RuntimeError). -/
def eval_assignment (fuel : Nat) (left right : Expression) (vars : Env) :
    RunResult String (Value × Env) :=
  match fuel with
  | 0 => .outOfFuel
  | fuel + 1 =>
    match left with
    | .Variable var_name =>
      ((eval fuel right vars).mapErr RuntimeError.errmsg).bind fun (right_value, vars) =>
        .ok (right_value, envInsert var_name right_value vars)
    | .BinaryOperation op_left ll rl =>
      match right with
      | .BinaryOperation op_right lr rr =>
        if op_left ≠ op_right then
          .err ("right-hand side of the assignment doesn\x27t match the pattern, expected binary operation "
            ++ binaryOpDebug op_left)
        else
          (eval_assignment fuel ll lr vars).bind fun (res_left, vars) =>
            (eval_assignment fuel rl rr vars).bind fun (res_right, vars) =>
              (eval fuel
                (.BinaryOperation op_left (.Value res_left) (.Value res_right))
                vars).mapErr RuntimeError.errmsg
      | _ =>
        .err "right-hand side of the assignment doesn\x27t match the pattern, expected binary operation"
    | .UnaryOperation op_left operand_left =>
      match right with
      | .UnaryOperation op_right operand_right =>
        if op_left ≠ op_right then
          .err ("right-hand side of the assignment doesn\x27t match the pattern, expected unary operation "
            ++ unaryOpDebug op_left)
        else
          (eval_assignment fuel operand_left operand_right vars).bind
            fun (res_operand, vars) =>
              (eval fuel (.UnaryOperation op_left (.Value res_operand)) vars).mapErr
                RuntimeError.errmsg
      | _ =>
        .err "right-hand side of the assignment doesn\x27t match the pattern, expected unary operation"
    | _ => .err "assignment is only possible to a variable or a simple expression"

end

/-- Outcome of the full pipeline (src/main.rs: tokenize, then parse, then
eval against an empty environment), tagging which stage failed. -/
inductive PipelineResult where
  | tokErr (e : TokenizerError)
  | parseErr (e : ParserError)
  | runErr (e : RuntimeError)
  | ok (v : Value)
  | panicked
  | outOfFuel

/-- The fuel handed to the parser and the evaluator by `pipeline`: ample
for every concrete program appearing in the claims (fuel is consumed once
per recursive call / loop iteration). -/
def pipeline_fuel : Nat := 1000

/-- The full pipeline of src/main.rs: `tokenize`, `parse`,
`eval(&ast, &mut HashMap::new())`, returning the resulting value. -/
def pipeline (code : String) : PipelineResult :=
  match tokenize code with
  | .err e => .tokErr e
  | .panicked => .panicked
  | .outOfFuel => .outOfFuel
  | .ok tokens =>
    match parse pipeline_fuel tokens with
    | .err e => .parseErr e
    | .panicked => .panicked
    | .outOfFuel => .outOfFuel
    | .ok ast =>
      match eval pipeline_fuel ast envEmpty with
      | .err e => .runErr e
      | .panicked => .panicked
      | .outOfFuel => .outOfFuel
      | .ok (v, _) => .ok v

/-! ## Statement helpers -/

/-- Whether a pipeline outcome is a parser-stage error. -/
def PipelineResult.isParseErr : PipelineResult → Bool
  | .parseErr _ => true
  | _ => false

/-- Whether a pipeline outcome is a runtime-stage error. -/
def PipelineResult.isRunErr : PipelineResult → Bool
  | .runErr _ => true
  | _ => false

/-- Whether a pipeline outcome is a successful Int value. -/
def PipelineResult.isOkInt : PipelineResult → Bool
  | .ok (.Int _) => true
  | _ => false

/-! ## Claims -/

/-- C1: chained/destructuring assignment: when the left-hand side of an
assignment is a binary operation matching the right-hand side's operator,
`eval_assignment` recursively binds the sub-patterns and then evaluates the
reconstructed binary operator over the two already-computed result values
(first conjunct); in particular `sum = a + b = 3 + 7` binds `a = 3`,
`b = 7` and binds `sum` to the evaluated `10` (not a tuple), and
`a, b = 1, 2; a + b` evaluates to Int 3. -/
theorem C1_chained_destructuring_assignment :
    (∀ (fuel : Nat) (op : BinaryOp) (ll rl lr rr : Expression) (env : Env),
      eval_assignment (fuel + 1) (.BinaryOperation op ll rl) (.BinaryOperation op lr rr) env =
        (eval_assignment fuel ll lr env).bind fun (res_left, vars) =>
          (eval_assignment fuel rl rr vars).bind fun (res_right, vars) =>
            (eval fuel (.BinaryOperation op (.Value res_left) (.Value res_right))
              vars).mapErr RuntimeError.errmsg)
    ∧ pipeline "sum = a + b = 3 + 7; sum" = .ok (.Int 10)
    ∧ pipeline "sum = a + b = 3 + 7; a" = .ok (.Int 3)
    ∧ pipeline "sum = a + b = 3 + 7; b" = .ok (.Int 7)
    ∧ pipeline "a, b = 1, 2; a + b" = .ok (.Int 3) := by
  refine ⟨fun fuel op ll rl lr rr env => ?_, rfl, rfl, rfl, rfl⟩
  simp only [eval_assignment]
  rw [if_neg (by simp)]

/-- C2: operator precedence and associativity through the full pipeline:
`1 + 2 * 3 ^ 2 * 5 + 10` evaluates to Int 101, `2 + -3` to Int -1 and
`-3 ^ 4` to Int -81 (unary negation binds looser than `^` but tighter than
`+` and `*`). -/
theorem C2_precedence_pipeline :
    pipeline "1 + 2 * 3 ^ 2 * 5 + 10" = .ok (.Int 101)
    ∧ pipeline "2 + -3" = .ok (.Int (-1))
    ∧ pipeline "-3 ^ 4" = .ok (.Int (-81)) :=
  ⟨rfl, rfl, rfl⟩

/-- C3: the early-return protocol: when a statement of a scope body
evaluates to a `Returned` sentinel, a returnable scope unwraps it and
returns the inner value immediately (short-circuiting the remaining
statements `rest`), while a non-returnable scope forwards the sentinel
unchanged (first conjunct, at any point `last` of the statement loop);
consequently `if (1 == 2) {return 1}; return 2` yields Int 2 and
`return return 1` yields `Returned (Int 1)` at top level (the top-level
scope is returnable and unwraps exactly once). -/
theorem C3_early_return_protocol :
    (∀ (fuel : Nat) (e : Expression) (rest : List Expression) (last : Option Value)
      (env : Env) (v : Value) (env' : Env),
      eval fuel e env = .ok (.Returned v, env') →
        eval_scope_body (fuel + 1) (e :: rest) true last env = .ok (v, env')
        ∧ eval_scope_body (fuel + 1) (e :: rest) false last env = .ok (.Returned v, env'))
    ∧ pipeline "if (1 == 2) {return 1}; return 2" = .ok (.Int 2)
    ∧ pipeline "return return 1" = .ok (.Returned (.Int 1)) := by
  refine ⟨fun fuel e rest last env v env' h => ?_, rfl, rfl⟩
  constructor <;> simp [eval_scope_body, h, RunResult.bind]

/-- Witness for C3's hypothesis: `return 1` evaluates to the sentinel, and
the two scope flavours unwrap/forward it as the theorem states. -/
theorem C3_early_return_protocol_witness :
    eval_scope_body 3 [.UnaryOperation .Return (.Value (.Int 1))] true none envEmpty
      = .ok (.Int 1, envEmpty)
    ∧ eval_scope_body 3 [.UnaryOperation .Return (.Value (.Int 1))] false none envEmpty
      = .ok (.Returned (.Int 1), envEmpty) :=
  C3_early_return_protocol.1 2 (.UnaryOperation .Return (.Value (.Int 1))) [] none
    envEmpty (.Int 1) envEmpty rfl

/-- C4 counterexample: the claim says a nonnegative exponent (`b >= 0`)
yields an Int, but src tests `i2 > 0`, so `2 ^ 0` evaluates to the Float
`1.0`, not an Int. -/
theorem C4_nonneg_exponent_counterexample :
    pipeline "2 ^ 0" = .ok (.Float 1) ∧ (pipeline "2 ^ 0").isOkInt = false :=
  ⟨rfl, rfl⟩

/-- C4 amended: for Int operands `a ^ b`, a strictly positive exponent
yields an Int value and a non-positive exponent (`b ≤ 0`, including zero)
promotes the result to Float. -/
theorem C4_pow_typing_amended :
    ∀ (a b : Int) (env : Env) (fuel : Nat),
      (0 < b → ∃ n : Int,
        eval (fuel + 2) (.BinaryOperation .Pow (.Value (.Int a)) (.Value (.Int b))) env
          = .ok (.Int n, env))
      ∧ (b ≤ 0 → ∃ q : Rat,
        eval (fuel + 2) (.BinaryOperation .Pow (.Value (.Int a)) (.Value (.Int b))) env
          = .ok (.Float q, env)) := by
  intro a b env fuel
  have hstep : eval (fuel + 2) (.BinaryOperation .Pow (.Value (.Int a)) (.Value (.Int b))) env
      = .ok ((if b > 0 then Value.Int (wrap32 (a ^ b.toNat))
          else Value.Float ((a : Rat) ^ b)), env) := by
    simp [eval, ltr_op_table, pow, RunResult.bind, RunResult.mapErr]
  constructor
  · intro h
    exact ⟨wrap32 (a ^ b.toNat), by rw [hstep, if_pos h]⟩
  · intro h
    exact ⟨(a : Rat) ^ b, by rw [hstep, if_neg (by omega)]⟩

/-- Witness for C4's hypotheses at `2 ^ 3` (positive exponent: Int) and
`2 ^ 0` (non-positive exponent: Float). -/
theorem C4_pow_typing_amended_witness :
    (∃ n : Int, eval 2 (.BinaryOperation .Pow (.Value (.Int 2)) (.Value (.Int 3))) envEmpty
      = .ok (.Int n, envEmpty))
    ∧ (∃ q : Rat, eval 2 (.BinaryOperation .Pow (.Value (.Int 2)) (.Value (.Int 0))) envEmpty
      = .ok (.Float q, envEmpty)) :=
  ⟨(C4_pow_typing_amended 2 3 envEmpty 0).1 (by decide),
   (C4_pow_typing_amended 2 0 envEmpty 0).2 (by decide)⟩

/-- C5 counterexample: the claim lists `IsEq` among the operators with
undefined type combinations and gives `IsEq` on Int and String as an
example, but src `eq` has a structural catch-all and is total: `1 == "foo"`
evaluates to `Bool false` with no RuntimeError (this is also a src test
case). -/
theorem C5_iseq_counterexample :
    eq (.Int 1) (.String "foo") = some (.Bool false)
    ∧ pipeline "1 == \"foo\"" = .ok (.Bool false)
    ∧ (pipeline "1 == \"foo\"").isRunErr = false :=
  ⟨rfl, rfl, rfl⟩

/-- C5 amended: for the operators dispatched through the binary table
(Add, Sub, Mul, Div, Pow, IsLt, IsGt — every `ltr_op_table` entry), any
operand pair on which the table function is undefined evaluates to a
RuntimeError whose message names the operator and the two operand type
names; `IsEq` (also a table entry) is defined on every pair and never
produces such an error. -/
theorem C5_undefined_binop_error_amended :
    (∀ (op : BinaryOp) (f : Value → Value → Option Value) (a b : Value) (env : Env)
      (fuel : Nat), ltr_op_table op = some f → f a b = none →
        eval (fuel + 2) (.BinaryOperation op (.Value a) (.Value b)) env
          = .err ⟨ltr_op_name op ++ " is not defined for " ++ a.type_name ++ " and "
              ++ b.type_name, [.BinaryOperation op (.Value a) (.Value b)]⟩)
    ∧ (∀ a b : Value, ∃ v, eq a b = some v) := by
  constructor
  · intro op f a b env fuel h1 h2
    cases op <;> simp only [ltr_op_table, Option.some.injEq, reduceCtorEq] at h1 <;>
      subst h1 <;>
      simp [eval, ltr_op_table, RunResult.bind, RunResult.mapErr, h2, ltr_op_name]
  · intro a b
    cases a <;> cases b <;> exact ⟨_, rfl⟩

/-- Witness for C5's hypotheses: `Add` is a table entry and `add` is
undefined on (Int, String), so `1 + "foo"` errors naming "addition",
"integer" and "string". -/
theorem C5_undefined_binop_error_amended_witness :
    eval 2 (.BinaryOperation .Add (.Value (.Int 1)) (.Value (.String "foo"))) envEmpty
      = .err ⟨"addition is not defined for integer and string",
          [.BinaryOperation .Add (.Value (.Int 1)) (.Value (.String "foo"))]⟩ :=
  C5_undefined_binop_error_amended.1 .Add add (.Int 1) (.String "foo") envEmpty 0 rfl rfl

/-- C6 counterexample: the claim says a plain `{...}` block clones the
environment and discards it, leaving `a` unbound after `{a = 2}`; but the
src `Scope` arm evaluates statements against the caller's map itself, so
`{a = 2}; a` succeeds with Int 2 instead of an undefined-variable error. -/
theorem C6_scope_isolation_counterexample :
    pipeline "{a = 2}; a" = .ok (.Int 2)
    ∧ (pipeline "{a = 2}; a").isRunErr = false :=
  ⟨rfl, rfl⟩

/-- C6 amended: a curly-brace block evaluates its statements directly
against the enclosing environment (no clone at scope entry, no discard at
scope exit — only user-defined function calls clone): a non-returnable
single-statement scope hands the statement's post-environment `env'`,
including any assignment performed inside the block, back to the enclosing
evaluation, and `{a = 2}; a` therefore yields Int 2. -/
theorem C6_scope_shares_env_amended :
    (∀ (fuel : Nat) (e : Expression) (env env' : Env) (v : Value),
      eval (fuel + 1) e env = .ok (v, env') → (∀ w, v ≠ .Returned w) →
        eval (fuel + 3) (.Scope [e] false) env = .ok (v, env'))
    ∧ pipeline "{a = 2}; a" = .ok (.Int 2) := by
  refine ⟨fun fuel e env env' v h hv => ?_, rfl⟩
  have hb : eval_scope_body (fuel + 2) [e] false none env = .ok (v, env') := by
    cases v <;> simp_all [eval_scope_body, RunResult.bind]
  simpa [eval, List.isEmpty] using hb

/-- Witness for C6's hypotheses: the single statement `a = 2` mutates the
environment, and the enclosing non-returnable scope passes that mutation
(`envInsert "a" 2`) back out. -/
theorem C6_scope_shares_env_amended_witness :
    eval 5 (.Scope [.BinaryOperation .Assign (.Variable "a") (.Value (.Int 2))] false)
        envEmpty
      = .ok (.Int 2, envInsert "a" (.Int 2) envEmpty) :=
  C6_scope_shares_env_amended.1 2
    (.BinaryOperation .Assign (.Variable "a") (.Value (.Int 2)))
    envEmpty (envInsert "a" (.Int 2) envEmpty) (.Int 2) rfl (by intro w h; cases h)

/-- C7: user-defined function call frame isolation: the call clones the
caller's environment (`env1`, the map after evaluating the callee
expression) into the local environment, binds the parameter pattern and
runs the body there, and whatever the callee writes, a successful call
hands back exactly `env1` — every caller binding is unchanged (first
conjunct); concretely (second conjunct), calling a function whose body
assigns `a = 99` in a caller environment where `a = 1` returns the
callee's result `99` while the caller's environment — `a` included — is
exactly as before the call. -/
theorem C7_function_call_env_isolation :
    (∀ (fuel : Nat) (left right : Expression) (env env1 env2 : Env)
      (fd : UserDefinedFunction) (v : Value),
      eval fuel left env = .ok (.Function (.UserDefined fd), env1) →
      eval (fuel + 1) (.BinaryOperation .FunctionCall left right) env = .ok (v, env2) →
      env2 = env1)
    ∧ eval 9
        (.BinaryOperation .FunctionCall
          (.Value (.Function (.UserDefined (.mk "f" (.Variable "x")
            (.BinaryOperation .Assign (.Variable "a") (.Value (.Int 99)))))))
          (.Value (.Int 5)))
        (envInsert "a" (.Int 1) envEmpty)
        = .ok (.Int 99, envInsert "a" (.Int 1) envEmpty) := by
  refine ⟨fun fuel left right env env1 env2 fd v h1 h2 => ?_, rfl⟩
  simp only [eval] at h2
  rw [h1] at h2
  simp only [RunResult.bind] at h2
  cases hA : eval_assignment fuel fd.params right env1 with
  | ok p =>
    obtain ⟨w, local_vars⟩ := p
    rw [hA] at h2
    simp only [RunResult.mapErr, RunResult.bind] at h2
    cases hB : eval fuel fd.body local_vars with
    | ok q =>
      obtain ⟨u, lv'⟩ := q
      rw [hB] at h2
      simp only [RunResult.mapErr, RunResult.bind, RunResult.ok.injEq, Prod.mk.injEq] at h2
      exact h2.2.symm
    | err e => rw [hB] at h2; simp [RunResult.mapErr, RunResult.bind] at h2
    | panicked => rw [hB] at h2; simp [RunResult.mapErr, RunResult.bind] at h2
    | outOfFuel => rw [hB] at h2; simp [RunResult.mapErr, RunResult.bind] at h2
  | err e => rw [hA] at h2; simp [RunResult.mapErr, RunResult.bind] at h2
  | panicked => rw [hA] at h2; simp [RunResult.mapErr, RunResult.bind] at h2
  | outOfFuel => rw [hA] at h2; simp [RunResult.mapErr, RunResult.bind] at h2

/-- Witness for C7's hypotheses: calling the identity function on `5` in
the empty environment returns Int 5 and leaves the environment exactly the
caller's. -/
theorem C7_function_call_env_isolation_witness :
    envEmpty = envEmpty :=
  C7_function_call_env_isolation.1 5
    (.Value (.Function (.UserDefined (.mk "f" (.Variable "x") (.Variable "x")))))
    (.Value (.Int 5)) envEmpty envEmpty envEmpty
    (.mk "f" (.Variable "x") (.Variable "x")) (.Int 5) rfl rfl

/-- C8 counterexample: `tokenize ""` succeeds (src returns `Ok` early on
an empty source) with an empty token sequence, which does not end with an
expression terminator. -/
theorem C8_empty_source_counterexample :
    tokenize "" = .ok ([] : List Token)
    ∧ (([] : List Token).getLast?.map Token.t) ≠ some TokenType.ExprEnd :=
  ⟨rfl, by simp⟩

/-- C8 amended: whenever `tokenize` succeeds with a nonempty token
sequence, that sequence ends with an `ExprEnd` token (one is appended
implicitly when the scan does not produce one); only the empty source
succeeds with an empty sequence. -/
theorem C8_terminator_amended :
    ∀ (code : String) (tokens : List Token),
      tokenize code = .ok tokens → tokens ≠ [] →
      tokens.getLast?.map Token.t = some .ExprEnd := by
  intro code tokens h hne
  unfold tokenize at h
  by_cases hlen : code.length = 0
  · rw [if_pos hlen] at h
    simp only [RunResult.ok.injEq] at h
    exact absurd h.symm hne
  · rw [if_neg hlen] at h
    cases hs : scan code.length (code.length + 1) code.toList.enum none [] with
    | ok ts =>
      rw [hs] at h
      simp only [RunResult.bind] at h
      cases hl : ts.getLast? with
      | none => rw [hl] at h; simp at h
      | some last =>
        rw [hl] at h
        by_cases hlast : last.t = .ExprEnd
        · simp only [hlast, ne_eq, not_true_eq_false, ite_false,
            RunResult.ok.injEq] at h
          subst h
          rw [hl]
          simp [hlast]
        · simp only [ne_eq, hlast, not_false_eq_true, ite_true,
            RunResult.ok.injEq] at h
          subst h
          simp [List.getLast?_concat]
    | err e => rw [hs] at h; simp [RunResult.bind] at h
    | panicked => rw [hs] at h; simp [RunResult.bind] at h
    | outOfFuel => rw [hs] at h; simp [RunResult.bind] at h

/-- Witness for C8's hypotheses at the source `"1"`: the tokenizer
succeeds with a nonempty sequence, whose last token is the implicitly
appended terminator. -/
theorem C8_terminator_amended_witness :
    ([⟨.Number, "1"⟩, ⟨.ExprEnd, ";"⟩] : List Token).getLast?.map Token.t
      = some .ExprEnd :=
  C8_terminator_amended "1" [⟨.Number, "1"⟩, ⟨.ExprEnd, ";"⟩] rfl (by simp)

/-- C9 counterexample: the pipeline on `1 + 111111 +` does not fail with a
ParserError — the missing right operand parses as the `Nothing` literal
(src `consume_expression` returns `Value(Nothing)` when it meets the
terminator where an operand was expected), and the failure is a
RuntimeError raised while evaluating the reconstructed addition. -/
theorem C9_no_parser_error_counterexample :
    (pipeline "1 + 111111 +").isParseErr = false
    ∧ pipeline "1 + 111111 +"
      = .runErr ⟨"addition is not defined for integer and nothing",
          [.BinaryOperation .Add
            (.BinaryOperation .Add (.Value (.Int 1)) (.Value (.Int 111111)))
            (.Value .Nothing)]⟩ :=
  ⟨rfl, rfl⟩

/-- C9 amended: `1 + 111111 +` tokenizes with an implied terminator,
parses successfully into `(1 + 111111) + Nothing`, and the pipeline fails
only at evaluation, with a RuntimeError "addition is not defined for
integer and nothing". -/
theorem C9_runtime_error_amended :
    tokenize "1 + 111111 +"
      = .ok [⟨.Number, "1"⟩, ⟨.Plus, "+"⟩, ⟨.Number, "111111"⟩, ⟨.Plus, "+"⟩,
          ⟨.ExprEnd, ";"⟩]
    ∧ parse pipeline_fuel
        [⟨.Number, "1"⟩, ⟨.Plus, "+"⟩, ⟨.Number, "111111"⟩, ⟨.Plus, "+"⟩,
          ⟨.ExprEnd, ";"⟩]
      = .ok (.Scope
          [.BinaryOperation .Add
            (.BinaryOperation .Add (.Value (.Int 1)) (.Value (.Int 111111)))
            (.Value .Nothing)] true)
    ∧ (pipeline "1 + 111111 +").isRunErr = true :=
  ⟨rfl, rfl, rfl⟩

/-- The while loop's behaviour does not depend on which expression is
captured as the `parent` for the condition-type error's traceback, except
through that traceback: the results agree after erasing tracebacks. -/
theorem eval_while_parent_errmsg (fuel : Nat) (c b p1 p2 : Expression) (lr : Value)
    (env : Env) :
    (eval_while fuel c b p1 lr env).mapErr RuntimeError.errmsg
      = (eval_while fuel c b p2 lr env).mapErr RuntimeError.errmsg := by
  induction fuel generalizing lr env with
  | zero => rfl
  | succ fuel ih =>
    simp only [eval_while]
    cases hc : eval fuel c env with
    | ok pc =>
      obtain ⟨cv, env1⟩ := pc
      simp only [RunResult.bind]
      cases cv with
      | Bool run_loop_iteration =>
        cases run_loop_iteration with
        | true =>
          simp only [if_true]
          cases hb : eval fuel b env1 with
          | ok pb =>
            obtain ⟨bv, env2⟩ := pb
            simp only [RunResult.bind]
            cases bv <;> first | rfl | exact ih _ _
          | err e => rfl
          | panicked => rfl
          | outOfFuel => rfl
        | false => rfl
      | Nothing => rfl
      | Int n => rfl
      | Float q => rfl
      | String s => rfl
      | Function f => rfl
      | Tuple es => rfl
      | Returned v => rfl
    | err e => rfl
    | panicked => rfl
    | outOfFuel => rfl

/-- C10 counterexample: the evaluator does not ignore `if_completed`
entirely — `new_error` clones the whole `While` node (with its
`if_completed`) into the RuntimeError traceback, so two `While`
expressions differing only in the else continuation, evaluated on the same
non-bool condition, yield different results (same message, different
traceback). -/
theorem C10_traceback_counterexample :
    eval 3 (.While (.Value (.Int 0)) (.Value .Nothing) (some (.Value .Nothing))) envEmpty
      = .err ⟨"while loop condition must evaluate to bool, got integer",
          [.While (.Value (.Int 0)) (.Value .Nothing) (some (.Value .Nothing))]⟩
    ∧ eval 3 (.While (.Value (.Int 0)) (.Value .Nothing) none) envEmpty
      = .err ⟨"while loop condition must evaluate to bool, got integer",
          [.While (.Value (.Int 0)) (.Value .Nothing) none]⟩
    ∧ eval 3 (.While (.Value (.Int 0)) (.Value .Nothing) (some (.Value .Nothing))) envEmpty
      ≠ eval 3 (.While (.Value (.Int 0)) (.Value .Nothing) none) envEmpty := by
  refine ⟨rfl, rfl, fun h => ?_⟩
  simp only [show eval 3 (.While (.Value (.Int 0)) (.Value .Nothing)
      (some (.Value .Nothing))) envEmpty
      = .err ⟨"while loop condition must evaluate to bool, got integer",
          [.While (.Value (.Int 0)) (.Value .Nothing) (some (.Value .Nothing))]⟩ from rfl,
    show eval 3 (.While (.Value (.Int 0)) (.Value .Nothing) none) envEmpty
      = .err ⟨"while loop condition must evaluate to bool, got integer",
          [.While (.Value (.Int 0)) (.Value .Nothing) none]⟩ from rfl] at h
  simp at h

/-- C10 amended: the `While` arm of `eval` never reads the parsed
`if_completed` clause, so evaluating `While (c, b, ic)` agrees with
evaluating `While (c, b, none)` in value, environment, and error message
on every input — everything except the diagnostic traceback, which embeds
the original node (first conjunct); the parser does accept and store an
else continuation after a while body (second and third conjuncts), and the
stored clause never influences the evaluated value (`while false 1 else 2`
is Nothing, not 2). -/
theorem C10_while_ignores_else_amended :
    (∀ (fuel : Nat) (c b : Expression) (ic : Option Expression) (env : Env),
      (eval fuel (.While c b ic) env).mapErr RuntimeError.errmsg
        = (eval fuel (.While c b none) env).mapErr RuntimeError.errmsg)
    ∧ tokenize "while false 1 else 2"
      = .ok [⟨.While, "while"⟩, ⟨.BoolLiteral, "false"⟩, ⟨.Number, "1"⟩,
          ⟨.Else, "else"⟩, ⟨.Number, "2"⟩, ⟨.ExprEnd, ";"⟩]
    ∧ parse pipeline_fuel
        [⟨.While, "while"⟩, ⟨.BoolLiteral, "false"⟩, ⟨.Number, "1"⟩,
          ⟨.Else, "else"⟩, ⟨.Number, "2"⟩, ⟨.ExprEnd, ";"⟩]
      = .ok (.Scope
          [.While (.Value (.Bool false)) (.Value (.Int 1)) (some (.Value (.Int 2)))]
          true)
    ∧ pipeline "while false 1 else 2" = .ok .Nothing := by
  refine ⟨fun fuel c b ic env => ?_, rfl, rfl, rfl⟩
  cases fuel with
  | zero => rfl
  | succ fuel =>
    simp only [eval]
    exact eval_while_parent_errmsg fuel c b (.While c b ic) (.While c b none) .Nothing env

end Calculator
